import Mathlib

/-!
Shallow embedding of the joint-sizing repository's core calculation modules
(`deflection_calculations.py`, `calculations.py`, `panel_calculations.py`).

Python floats are modelled by real numbers.  A Python float division raises
`ZeroDivisionError` when the divisor is zero, so every function whose source
can divide by zero is embedded as an `Except`-valued function whose guards
mirror exactly the divisions performed by the source, in source evaluation
order; on the non-error path the arithmetic is the source's, verbatim.
String tags are kept as strings because the source dispatches on them with
open-ended `==` comparisons (unknown tags silently fall through to `else`
branches), which several claims are about.
-/

/-- Runtime failures the Python source can raise: `ValueError` for an unknown
shape tag (spec name: `InvalidArgument`) and `ZeroDivisionError` for a float
division by zero. -/
inductive Err where
  | invalidArgument : Err
  | zeroDivision : Err
deriving DecidableEq

/-- Decides whether an `Except` value is a success, i.e. the Python call
returned normally instead of raising. -/
def isOkE {α : Type} : Except Err α → Bool
  | .ok _ => true
  | .error _ => false

namespace deflection_calculations

/-- Embeds `deflection_calculations.deflection_shape`: `xi = x / L` (a float
division, raising when `L = 0`), then `phi` by shape tag, unknown tags raise
`ValueError`; the result is `-abs(u_max) * phi`. -/
noncomputable def deflection_shape (x u_max L : ℝ) (shape : String) : Except Err ℝ :=
  if L = 0 then .error .zeroDivision
  else
    let xi := x / L
    if shape = "fixed-fixed" then .ok (-|u_max| * (16 * xi ^ 2 * (1 - xi) ^ 2))
    else if shape = "quadratic" then .ok (-|u_max| * (4 * xi * (1 - xi)))
    else .error .invalidArgument

/-- Embeds `deflection_calculations.get_deflection_at_position`: any frame
tag other than `"concrete"` selects the `"quadratic"` shape. -/
noncomputable def get_deflection_at_position (x u_max L : ℝ) (frame_type : String) :
    Except Err ℝ :=
  deflection_shape x u_max L (if frame_type = "concrete" then "fixed-fixed" else "quadratic")

end deflection_calculations

namespace calculations

/-- Embeds `calculations.deflection_shape` (the duplicate in
`calculations.py`): same shapes, but the result is `u_max * phi`, with no
sign normalisation. -/
noncomputable def deflection_shape (x u_max L : ℝ) (shape : String) : Except Err ℝ :=
  if L = 0 then .error .zeroDivision
  else
    let xi := x / L
    if shape = "fixed-fixed" then .ok (u_max * (16 * xi ^ 2 * (1 - xi) ^ 2))
    else if shape = "quadratic" then .ok (u_max * (4 * xi * (1 - xi)))
    else .error .invalidArgument

end calculations

/-- The value computed by `deflection_calculations.get_deflection_at_position`
on its non-error path (`L ≠ 0`), as a total function:
`-abs(u_max) * phi(x / L)` with the quartic shape for `"concrete"` and the
parabolic shape for every other frame tag. -/
noncomputable def deflection_val (x u_max L : ℝ) (frame_type : String) : ℝ :=
  let xi := x / L
  if frame_type = "concrete" then -|u_max| * (16 * xi ^ 2 * (1 - xi) ^ 2)
  else -|u_max| * (4 * xi * (1 - xi))

/-- The dictionary returned by `panel_calculations.calculate_panel_geometry`:
four corner points, the rotation angle (radians and degrees) and the two
edge deflections with their difference. -/
structure PanelGeometry where
  top_left : ℝ × ℝ
  top_right : ℝ × ℝ
  bottom_left : ℝ × ℝ
  bottom_right : ℝ × ℝ
  rotation_angle : ℝ
  rotation_degrees : ℝ
  deflection_start : ℝ
  deflection_end : ℝ
  deflection_diff : ℝ

namespace panel_calculations

/-- The value computed by `panel_calculations.calculate_panel_geometry` on its
non-error path (`single_span ≠ 0` and `x_end - x_start ≠ 0`), translated
verbatim from the source: local coordinates by span offset, edge deflections
from `get_deflection_at_position`, `rotation_angle = arcsin(-diff / width)`,
and the two non-support corners offset from the support corners by
`panel_height * (-sin θ, cos θ)` (bottom-supported) or its negation
(top-hung).  Any support tag other than `"bottom_supported"` takes the
top-hung branch, exactly as the source's `if/else` does. -/
noncomputable def calculate_panel_geometry_val (x_start x_end : ℝ) (span_number : ℕ)
    (single_span panel_height u_max : ℝ) (frame_type support_type : String) :
    PanelGeometry :=
  let span_offset := (span_number : ℝ) * single_span
  let x_local_start := x_start - span_offset
  let x_local_end := x_end - span_offset
  let deflection_start := deflection_val x_local_start u_max single_span frame_type
  let deflection_end := deflection_val x_local_end u_max single_span frame_type
  let panel_width := x_end - x_start
  let deflection_diff := deflection_end - deflection_start
  let rotation_angle := Real.arcsin (-deflection_diff / panel_width)
  let cos_theta := Real.cos rotation_angle
  let sin_theta := Real.sin rotation_angle
  if support_type = "bottom_supported" then
    { top_left := (x_start - panel_height * sin_theta,
                   deflection_start + panel_height * cos_theta)
      top_right := (x_end - panel_height * sin_theta,
                    deflection_end + panel_height * cos_theta)
      bottom_left := (x_start, deflection_start)
      bottom_right := (x_end, deflection_end)
      rotation_angle := rotation_angle
      rotation_degrees := rotation_angle * 180 / Real.pi
      deflection_start := deflection_start
      deflection_end := deflection_end
      deflection_diff := deflection_diff }
  else
    { top_left := (x_start, deflection_start)
      top_right := (x_end, deflection_end)
      bottom_left := (x_start + panel_height * sin_theta,
                      deflection_start - panel_height * cos_theta)
      bottom_right := (x_end + panel_height * sin_theta,
                       deflection_end - panel_height * cos_theta)
      rotation_angle := rotation_angle
      rotation_degrees := rotation_angle * 180 / Real.pi
      deflection_start := deflection_start
      deflection_end := deflection_end
      deflection_diff := deflection_diff }

/-- Embeds `panel_calculations.calculate_panel_geometry`.  The source performs
two float divisions: `x / single_span` inside the deflection evaluation
(raising first, when `single_span = 0`) and
`-deflection_diff / panel_width` (raising when `x_end - x_start = 0`); with
both divisors nonzero it returns the dictionary of
`calculate_panel_geometry_val`. -/
noncomputable def calculate_panel_geometry (x_start x_end : ℝ) (span_number : ℕ)
    (single_span panel_height u_max : ℝ) (frame_type support_type : String) :
    Except Err PanelGeometry :=
  if single_span = 0 then .error .zeroDivision
  else if x_end - x_start = 0 then .error .zeroDivision
  else .ok (calculate_panel_geometry_val x_start x_end span_number single_span
      panel_height u_max frame_type support_type)

/-- The loop body of `panel_calculations.calculate_panel_positions`: starting
from `current_x`, emit `k` triples `(x_start, x_start + panel_width,
span_number)`, advancing `current_x` by `panel_width + joint_width` each
iteration, with `span_number = 0` when `x_start < single_span` and `1`
otherwise. -/
noncomputable def panel_loop (panel_width joint_width single_span : ℝ) :
    ℕ → ℝ → List (ℝ × ℝ × ℕ)
  | 0, _ => []
  | k + 1, current_x =>
      (current_x, current_x + panel_width,
        if current_x < single_span then 0 else 1) ::
        panel_loop panel_width joint_width single_span k
          (current_x + panel_width + joint_width)

/-- Embeds `panel_calculations.calculate_panel_positions`:
`single_span = total_span / 2`, `panel_width = (total_span -
(num_panels - 1) * joint_width) / num_panels` (a float division raising when
`num_panels = 0`; Python's `range` over a negative count is empty, so
negative counts run the loop zero times), then the left-to-right loop above
starting at `x = 0`.  The layout arithmetic is identical in
`calculations.calculate_panel_positions`, which merely omits the
`span_number` component. -/
noncomputable def calculate_panel_positions (total_span : ℝ) (num_panels : ℤ)
    (joint_width : ℝ) : Except Err (List (ℝ × ℝ × ℕ)) :=
  let single_span := total_span / 2
  let total_joint_width := ((num_panels : ℝ) - 1) * joint_width
  let available_span := total_span - total_joint_width
  if num_panels = 0 then .error .zeroDivision
  else
    let panel_width := available_span / (num_panels : ℝ)
    .ok (panel_loop panel_width joint_width single_span num_panels.toNat 0)

/-- One record of `panel_calculations.get_all_panel_geometries`: the geometry
dictionary of `calculate_panel_geometry` extended in place with the panel's
`x_start`, `x_end` and `span_number`. -/
structure PanelRecord extends PanelGeometry where
  x_start : ℝ
  x_end : ℝ
  span_number : ℕ

/-- Embeds `panel_calculations.get_all_panel_geometries`: iterate over the
panel triples in order, solve each panel with `calculate_panel_geometry`,
extend the result with the triple's fields and append; the first panel that
raises aborts the whole call (Python propagates the exception). -/
noncomputable def get_all_panel_geometries (panels : List (ℝ × ℝ × ℕ))
    (single_span panel_height u_max : ℝ) (frame_type support_type : String) :
    Except Err (List PanelRecord) :=
  match panels with
  | [] => .ok []
  | (x_start, x_end, span_number) :: rest =>
    match calculate_panel_geometry x_start x_end span_number single_span
        panel_height u_max frame_type support_type with
    | .error e => .error e
    | .ok geometry =>
      match get_all_panel_geometries rest single_span panel_height u_max
          frame_type support_type with
      | .error e => .error e
      | .ok geometries =>
        .ok (⟨geometry, x_start, x_end, span_number⟩ :: geometries)

end panel_calculations

open panel_calculations

theorem get_deflection_at_position_ok (x u_max L : ℝ) (frame_type : String) (hL : L ≠ 0) :
    deflection_calculations.get_deflection_at_position x u_max L frame_type =
      .ok (deflection_val x u_max L frame_type) := by
  by_cases hf : frame_type = "concrete" <;>
    simp [deflection_calculations.get_deflection_at_position,
      deflection_calculations.deflection_shape, deflection_val, hL, hf]

theorem calculate_panel_geometry_ok (x_start x_end : ℝ) (span_number : ℕ)
    (single_span panel_height u_max : ℝ) (frame_type support_type : String)
    (h1 : single_span ≠ 0) (h2 : x_end - x_start ≠ 0) :
    calculate_panel_geometry x_start x_end span_number single_span panel_height
        u_max frame_type support_type =
      .ok (calculate_panel_geometry_val x_start x_end span_number single_span
        panel_height u_max frame_type support_type) := by
  simp [calculate_panel_geometry, h1, h2]

theorem panel_loop_length (panel_width joint_width single_span : ℝ) :
    ∀ (k : ℕ) (current_x : ℝ),
      (panel_loop panel_width joint_width single_span k current_x).length = k := by
  intro k
  induction k with
  | zero => intro c; simp [panel_loop]
  | succ n ih => intro c; simp [panel_loop, ih]

theorem panel_loop_get (panel_width joint_width single_span : ℝ) :
    ∀ (k : ℕ) (current_x : ℝ) (i : ℕ) (hi : i < k),
      (panel_loop panel_width joint_width single_span k current_x).get
          ⟨i, by rw [panel_loop_length]; exact hi⟩ =
        (current_x + i * (panel_width + joint_width),
         current_x + i * (panel_width + joint_width) + panel_width,
         if current_x + i * (panel_width + joint_width) < single_span then 0 else 1) := by
  intro k
  induction k with
  | zero => intro c i hi; exact absurd hi (Nat.not_lt_zero i)
  | succ n ih =>
    intro c i hi
    match i with
    | 0 => simp [panel_loop]
    | j + 1 =>
      have hj : j < n := Nat.lt_of_succ_lt_succ hi
      have step := ih (c + panel_width + joint_width) j hj
      have harg : c + panel_width + joint_width + j * (panel_width + joint_width) =
          c + (j + 1 : ℕ) * (panel_width + joint_width) := by
        push_cast
        ring
      simp only [panel_loop, List.get_cons_succ]
      rw [step, harg]

theorem panel_loop_mem_span (panel_width joint_width single_span : ℝ) :
    ∀ (k : ℕ) (current_x : ℝ) (p : ℝ × ℝ × ℕ),
      p ∈ panel_loop panel_width joint_width single_span k current_x →
        p.2.2 = if p.1 < single_span then 0 else 1 := by
  intro k
  induction k with
  | zero => intro c p hp; simp [panel_loop] at hp
  | succ n ih =>
    intro c p hp
    simp only [panel_loop, List.mem_cons] at hp
    rcases hp with rfl | hp
    · rfl
    · exact ih _ p hp

theorem layout_example :
    calculate_panel_positions 6000 4 5 =
      .ok [(0, 1496.25, 0), (1501.25, 2997.5, 0), (3002.5, 4498.75, 1),
           (4503.75, 6000, 1)] := by
  simp only [calculate_panel_positions, panel_loop]
  norm_num

theorem aggregator_example :
    get_all_panel_geometries [(0, 1000, 0)] 2000 3000 5 "concrete" "bottom_supported" =
      .ok [⟨calculate_panel_geometry_val 0 1000 0 2000 3000 5 "concrete" "bottom_supported",
            0, 1000, 0⟩] := by
  have h1 := calculate_panel_geometry_ok 0 1000 0 2000 3000 5 "concrete" "bottom_supported"
    (by norm_num) (by norm_num)
  rw [get_all_panel_geometries, h1, get_all_panel_geometries]

/-- C1: the claim says the four corners of a solved panel always form an exact
rectangle (equal support-parallel sides, height sides of length panelHeight,
height offset perpendicular to the support chord, equal diagonals).  The code
violates this — contradicting its own docstring "Panel maintains rectangular
shape (90-degree corners)": at x_start=0, x_end=1000, single_span=2000,
panel_height=1000, u_max=1000, steel frame, bottom-supported, the solver
returns corners TL=(-1000,0), TR=(0,-1000), BL=(0,0), BR=(1000,-1000), whose
squared diagonals |TL-BR|² and |BL-TR|² differ (5·10⁶ vs 10⁶) and whose
height offset TL-BL = (-1000,0) is not perpendicular to the support chord
BR-BL = (1000,-1000). -/
theorem C1_corners_not_rectangle :
    calculate_panel_geometry 0 1000 0 2000 1000 1000 "steel" "bottom_supported" =
      .ok { top_left := (-1000, 0), top_right := (0, -1000),
            bottom_left := (0, 0), bottom_right := (1000, -1000),
            rotation_angle := Real.pi / 2, rotation_degrees := 90,
            deflection_start := 0, deflection_end := -1000,
            deflection_diff := -1000 } ∧
    ((-1000 : ℝ) - 1000) ^ 2 + ((0 : ℝ) - (-1000)) ^ 2 ≠
      ((0 : ℝ) - 0) ^ 2 + ((0 : ℝ) - (-1000)) ^ 2 ∧
    ((-1000 : ℝ) - 0) * (1000 - 0) + ((0 : ℝ) - 0) * ((-1000 : ℝ) - 0) ≠ 0 := by
  refine ⟨?_, by norm_num, by norm_num⟩
  have hpi := Real.pi_ne_zero
  simp only [calculate_panel_geometry, calculate_panel_geometry_val, deflection_val]
  norm_num [Real.arcsin_one, Real.sin_pi_div_two, Real.cos_pi_div_two]
  field_simp
  ring

/-- C2 (counterexample): the claim says the returned rotation angle equals
atan2(dEnd-dStart, xEnd-xStart) and is negative for dStart=0, dEnd=-5,
dx=1000.  Since dx=1000 > 0, atan2(-5,1000) = arctan(-5/1000) < 0; but the
code returns arcsin(-(dEnd-dStart)/dx) = arcsin(1/200) > 0 on exactly that
configuration (x 0→1000, span 2000, u_max=5, steel ⇒ dStart=0, dEnd=-5). -/
theorem C2_rotation_sign_counterexample :
    (calculate_panel_geometry 0 1000 0 2000 3000 5 "steel" "top_hung").map
        PanelGeometry.rotation_angle = .ok (Real.arcsin (1 / 200)) ∧
    0 < Real.arcsin (1 / 200) ∧
    Real.arctan ((-5) / 1000) < 0 ∧
    Real.arcsin (1 / 200) ≠ Real.arctan ((-5) / 1000) := by
  have h1 : (0 : ℝ) < Real.arcsin (1 / 200) := Real.arcsin_pos.mpr (by norm_num)
  have h2 : Real.arctan ((-5) / 1000) < 0 := by
    have := Real.arctan_strictMono (show ((-5) : ℝ) / 1000 < 0 by norm_num)
    rwa [Real.arctan_zero] at this
  refine ⟨?_, h1, h2, by intro h; rw [h] at h1; linarith⟩
  simp only [calculate_panel_geometry, calculate_panel_geometry_val, deflection_val]
  rw [if_neg (by decide : ¬("top_hung" = "bottom_supported"))]
  norm_num [Except.map]

/-- C2 (amended): for every panel with xStart < xEnd and nonzero span, the
rotation angle returned by the solver — identical for every support tag — is
arcsin(-(dEnd-dStart)/(xEnd-xStart)) = -arcsin((dEnd-dStart)/(xEnd-xStart)),
not atan2(dEnd-dStart, xEnd-xStart); its sign is the opposite of the secant
convention the claim states: when dEnd < dStart (end deflected further down)
the returned angle is strictly positive. -/
theorem C2_rotation_is_arcsin (x_start x_end : ℝ) (span_number : ℕ)
    (single_span panel_height u_max : ℝ) (frame_type support_type : String)
    (g : PanelGeometry) (hx : x_start < x_end) (hL : single_span ≠ 0)
    (hok : calculate_panel_geometry x_start x_end span_number single_span panel_height
        u_max frame_type support_type = .ok g) :
    g.rotation_angle =
      -Real.arcsin
        ((deflection_val (x_end - span_number * single_span) u_max single_span frame_type -
            deflection_val (x_start - span_number * single_span) u_max single_span frame_type) /
          (x_end - x_start)) ∧
    (deflection_val (x_end - span_number * single_span) u_max single_span frame_type <
        deflection_val (x_start - span_number * single_span) u_max single_span frame_type →
      0 < g.rotation_angle) := by
  rw [calculate_panel_geometry, if_neg hL,
    if_neg (sub_ne_zero.mpr (ne_of_gt hx))] at hok
  injection hok with hg
  subst hg
  have hrot : (calculate_panel_geometry_val x_start x_end span_number single_span panel_height
      u_max frame_type support_type).rotation_angle =
      Real.arcsin
        (-(deflection_val (x_end - span_number * single_span) u_max single_span frame_type -
            deflection_val (x_start - span_number * single_span) u_max single_span frame_type) /
          (x_end - x_start)) := by
    by_cases hs : support_type = "bottom_supported" <;>
      simp only [calculate_panel_geometry_val, hs, if_pos, if_neg, reduceIte]
  rw [hrot]
  constructor
  · rw [neg_div, Real.arcsin_neg]
  · intro hlt
    refine Real.arcsin_pos.mpr (div_pos ?_ ?_) <;> linarith

/-- C2 (witness): the amended theorem applied at the claim's own concrete
configuration x 0→1000, single_span 2000, u_max 5, steel, top-hung (so
dStart = 0, dEnd = -5): the returned rotation angle is strictly positive. -/
theorem C2_rotation_is_arcsin_witness :
    (0 : ℝ) < 1000 ∧ (2000 : ℝ) ≠ 0 ∧
    0 < (calculate_panel_geometry_val 0 1000 0 2000 3000 5 "steel" "top_hung").rotation_angle := by
  refine ⟨by norm_num, by norm_num, ?_⟩
  have h := C2_rotation_is_arcsin 0 1000 0 2000 3000 5 "steel" "top_hung" _
    (by norm_num) (by norm_num)
    (calculate_panel_geometry_ok 0 1000 0 2000 3000 5 "steel" "top_hung"
      (by norm_num) (by norm_num))
  exact h.2 (by norm_num [deflection_val])

/-- C3 (counterexample): the claim says "the deflection-curve evaluation"
returns -|U|·φ(x/L), always non-positive, citing both `deflection_shape`
copies; but the copy in `calculations.py` returns u_max·φ with no sign
normalisation: at x=3000, L=6000, U=10, fixed-fixed it returns +10, which is
positive and not -10. -/
theorem C3_calculations_positive_counterexample :
    calculations.deflection_shape 3000 10 6000 "fixed-fixed" = .ok 10 ∧
    ¬((10 : ℝ) ≤ 0) ∧ (10 : ℝ) ≠ -10 := by
  refine ⟨?_, by norm_num, by norm_num⟩
  simp only [calculations.deflection_shape]
  norm_num

/-- C3 (amended): the solver-path deflection evaluation
(`deflection_calculations.deflection_shape`, used via
`get_deflection_at_position`) does satisfy the claim: for 0 ≤ x ≤ L, L > 0 it
returns -|U|·φ(x/L) for both recognised shapes, and both values are
non-positive (downward); the duplicate `calculations.deflection_shape`
returns u_max·φ(x/L) instead. -/
theorem C3_deflection_nonpositive (x u_max L : ℝ) (h0 : 0 < L) (h1 : 0 ≤ x) (h2 : x ≤ L) :
    deflection_calculations.deflection_shape x u_max L ("fixed-fixed") =
      .ok (-|u_max| * (16 * (x / L) ^ 2 * (1 - x / L) ^ 2)) ∧
    deflection_calculations.deflection_shape x u_max L ("quadratic") =
      .ok (-|u_max| * (4 * (x / L) * (1 - x / L))) ∧
    -|u_max| * (16 * (x / L) ^ 2 * (1 - x / L) ^ 2) ≤ 0 ∧
    -|u_max| * (4 * (x / L) * (1 - x / L)) ≤ 0 := by
  have hxi0 : 0 ≤ x / L := div_nonneg h1 h0.le
  have hxi1 : x / L ≤ 1 := (div_le_one h0).mpr h2
  refine ⟨?_, ?_, ?_, ?_⟩
  · simp [deflection_calculations.deflection_shape, h0.ne']
  · simp [deflection_calculations.deflection_shape, h0.ne']
  · have hphi : 0 ≤ |u_max| * (16 * (x / L) ^ 2 * (1 - x / L) ^ 2) := by positivity
    linarith
  · have hphi : 0 ≤ |u_max| * (4 * (x / L) * (1 - x / L)) := by
      have : 0 ≤ 4 * (x / L) * (1 - x / L) := by nlinarith
      exact mul_nonneg (abs_nonneg u_max) this
    linarith

/-- C3 (witness): the amended theorem at the claim's own example
x=3000, L=6000, U=10, fixed-fixed: the solver-path evaluation returns
exactly -10. -/
theorem C3_deflection_nonpositive_witness :
    (0 : ℝ) < 6000 ∧ (0 : ℝ) ≤ 3000 ∧ (3000 : ℝ) ≤ 6000 ∧
    deflection_calculations.deflection_shape 3000 10 6000 "fixed-fixed" = .ok (-10) := by
  have h := C3_deflection_nonpositive 3000 10 6000 (by norm_num) (by norm_num) (by norm_num)
  refine ⟨by norm_num, by norm_num, by norm_num, ?_⟩
  rw [h.1]
  norm_num

/-- C4: the claim says a degenerate panel (xStart = xEnd) is returned as a
collapsed rectangle with rotation 0 and no division by zero.  The code has no
degenerate-case guard: at x_start = x_end = 500 (span 2000, concrete, either
support mode) it evaluates `-deflection_diff / panel_width` = 0/0, a Python
`ZeroDivisionError`, so the call raises instead of returning. -/
theorem C4_degenerate_panel_raises :
    calculate_panel_geometry 500 500 0 2000 3000 5 "concrete" "top_hung" =
      .error .zeroDivision ∧
    calculate_panel_geometry 500 500 0 2000 3000 5 "concrete" "bottom_supported" =
      .error .zeroDivision := by
  constructor <;> simp [calculate_panel_geometry]

/-- C5: for panelCount ≥ 1, jointWidth ≥ 0 and totalSpan > (n-1)·jointWidth,
the layout returns exactly n intervals starting at x = 0, each of the equal
width (totalSpan-(n-1)·jointWidth)/n, strictly increasing with gap exactly
jointWidth between consecutive intervals and the last interval ending exactly
at totalSpan (no trailing gap).  The claim's concrete instance
layout(6000,4,5) is the witness. -/
theorem C5_layout_uniform (total_span joint_width : ℝ) (num_panels : ℤ)
    (ps : List (ℝ × ℝ × ℕ))
    (hn : 1 ≤ num_panels) (hj : 0 ≤ joint_width)
    (ht : ((num_panels : ℝ) - 1) * joint_width < total_span)
    (hok : calculate_panel_positions total_span num_panels joint_width = .ok ps) :
    ps.length = num_panels.toNat ∧
    (∀ (h0 : 0 < ps.length), (ps.get ⟨0, h0⟩).1 = 0) ∧
    (∀ i (hi : i < ps.length), (ps.get ⟨i, hi⟩).2.1 - (ps.get ⟨i, hi⟩).1 =
      (total_span - ((num_panels : ℝ) - 1) * joint_width) / (num_panels : ℝ)) ∧
    (∀ i (hi : i + 1 < ps.length),
      (ps.get ⟨i + 1, hi⟩).1 - (ps.get ⟨i, Nat.lt_of_succ_lt hi⟩).2.1 = joint_width ∧
      (ps.get ⟨i, Nat.lt_of_succ_lt hi⟩).1 < (ps.get ⟨i + 1, hi⟩).1) ∧
    (∀ (h0 : 0 < ps.length),
      (ps.get ⟨ps.length - 1, by omega⟩).2.1 = total_span) := by
  have hn0 : ¬num_panels = 0 := by omega
  rw [calculate_panel_positions] at hok
  simp only [if_neg hn0] at hok
  injection hok with hps
  subst hps
  set w := (total_span - ((num_panels : ℝ) - 1) * joint_width) / (num_panels : ℝ) with hw
  set N := num_panels.toNat with hN
  have hNcast : ((N : ℤ) : ℝ) = (num_panels : ℝ) := by
    rw [hN, Int.toNat_of_nonneg (by omega)]
  have hN1 : 1 ≤ N := by omega
  have hnR : (0 : ℝ) < (num_panels : ℝ) := by exact_mod_cast (by omega : (0 : ℤ) < num_panels)
  have hwpos : 0 < w := div_pos (by linarith) hnR
  have hlen : (panel_loop w joint_width (total_span / 2) N 0).length = N :=
    panel_loop_length _ _ _ _ _
  refine ⟨hlen, ?_, ?_, ?_, ?_⟩
  · intro h0
    rw [panel_loop_get w joint_width (total_span / 2) N 0 0 (by omega)]
    norm_num
  · intro i hi
    have hi' : i < N := by rwa [hlen] at hi
    rw [panel_loop_get w joint_width (total_span / 2) N 0 i hi']
    ring
  · intro i hi
    have hi1 : i + 1 < N := by rwa [hlen] at hi
    have hi0 : i < N := by omega
    rw [panel_loop_get w joint_width (total_span / 2) N 0 (i + 1) hi1,
      panel_loop_get w joint_width (total_span / 2) N 0 i hi0]
    constructor
    · push_cast
      ring
    · push_cast
      nlinarith [hwpos, hj]
  · intro h0
    have hN1' : N - 1 < N := by omega
    rw [show (⟨(panel_loop w joint_width (total_span / 2) N 0).length - 1, by omega⟩ :
        Fin (panel_loop w joint_width (total_span / 2) N 0).length) =
        ⟨N - 1, by rw [hlen]; omega⟩ from by
          apply Fin.ext
          simp [hlen]]
    rw [panel_loop_get w joint_width (total_span / 2) N 0 (N - 1) hN1']
    have hcast : ((N - 1 : ℕ) : ℝ) = (num_panels : ℝ) - 1 := by
      rw [Nat.cast_sub hN1, Nat.cast_one]
      rw [show ((N : ℕ) : ℝ) = ((N : ℤ) : ℝ) from by push_cast; ring, hNcast]
    rw [hcast, hw]
    field_simp
    ring

/-- C5 (witness): the theorem at the claim's own instance layout(6000,4,5),
whose intervals are (0,1496.25), (1501.25,2997.5), (3002.5,4498.75),
(4503.75,6000): four intervals, first start 0, panel 3 width
(6000-3·5)/4 = 1496.25, last end 6000. -/
theorem C5_layout_uniform_witness :
    (1 : ℤ) ≤ 4 ∧ (0 : ℝ) ≤ 5 ∧ (((4 : ℤ) : ℝ) - 1) * 5 < 6000 ∧
    ([(0, 1496.25, 0), (1501.25, 2997.5, 0), (3002.5, 4498.75, 1),
        ((4503.75 : ℝ), (6000 : ℝ), (1 : ℕ))] : List (ℝ × ℝ × ℕ)).length = (4 : ℤ).toNat ∧
    (([(0, 1496.25, 0), (1501.25, 2997.5, 0), (3002.5, 4498.75, 1),
        ((4503.75 : ℝ), (6000 : ℝ), (1 : ℕ))] : List (ℝ × ℝ × ℕ)).get ⟨0, by norm_num⟩).1 = 0 ∧
    (([(0, 1496.25, 0), (1501.25, 2997.5, 0), (3002.5, 4498.75, 1),
        ((4503.75 : ℝ), (6000 : ℝ), (1 : ℕ))] : List (ℝ × ℝ × ℕ)).get ⟨3, by norm_num⟩).2.1 -
      (([(0, 1496.25, 0), (1501.25, 2997.5, 0), (3002.5, 4498.75, 1),
        ((4503.75 : ℝ), (6000 : ℝ), (1 : ℕ))] : List (ℝ × ℝ × ℕ)).get ⟨3, by norm_num⟩).1 =
      (6000 - (((4 : ℤ) : ℝ) - 1) * 5) / ((4 : ℤ) : ℝ) ∧
    (([(0, 1496.25, 0), (1501.25, 2997.5, 0), (3002.5, 4498.75, 1),
        ((4503.75 : ℝ), (6000 : ℝ), (1 : ℕ))] : List (ℝ × ℝ × ℕ)).get
        ⟨([(0, 1496.25, 0), (1501.25, 2997.5, 0), (3002.5, 4498.75, 1),
          ((4503.75 : ℝ), (6000 : ℝ), (1 : ℕ))] : List (ℝ × ℝ × ℕ)).length - 1,
          by norm_num⟩).2.1 = 6000 := by
  have h := C5_layout_uniform 6000 5 4 _ (by norm_num) (by norm_num) (by norm_num)
    layout_example
  exact ⟨by norm_num, by norm_num, by norm_num, h.1, h.2.1 (by norm_num),
    h.2.2.1 3 (by norm_num), h.2.2.2.2 (by norm_num)⟩

/-- C6 (counterexample): the claim says the layout fails with InvalidArgument
whenever jointWidth < 0 (among other precondition violations).  The code
performs no validation: layout(6000, 4, -5) succeeds, returning four
overlapping intervals of width (6000+15)/4 = 1503.75. -/
theorem C6_negative_joint_accepted :
    calculate_panel_positions 6000 4 (-5) =
      .ok [(0, 1503.75, 0), (1498.75, 3002.5, 0), (2997.5, 4501.25, 0),
           (4496.25, 6000, 1)] := by
  simp only [calculate_panel_positions, panel_loop]
  norm_num

/-- C6 (amended): the layout validates nothing.  panelCount = 0 raises
`ZeroDivisionError` (not InvalidArgument, and only because the width division
trips over it); panelCount < 0 silently returns an empty list; and for every
panelCount ≠ 0 the call succeeds regardless of jointWidth's sign or of
totalSpan vs (panelCount-1)·jointWidth. -/
theorem C6_layout_never_validates (num_panels : ℤ) (total_span joint_width : ℝ) :
    calculate_panel_positions total_span 0 joint_width = .error .zeroDivision ∧
    (num_panels < 0 → calculate_panel_positions total_span num_panels joint_width = .ok []) ∧
    (num_panels ≠ 0 →
      isOkE (calculate_panel_positions total_span num_panels joint_width) = true) := by
  refine ⟨?_, ?_, ?_⟩
  · simp [calculate_panel_positions]
  · intro hneg
    rw [calculate_panel_positions]
    simp only [if_neg (by omega : ¬num_panels = 0)]
    rw [show num_panels.toNat = 0 from by omega]
    rfl
  · intro h
    simp [calculate_panel_positions, isOkE, h]

/-- C6 (witness): the amended theorem at panelCount = -1 (silently empty) and
at the valid call layout(6000,4,5) (succeeds). -/
theorem C6_layout_never_validates_witness :
    calculate_panel_positions 6000 (-1) 5 = .ok [] ∧
    isOkE (calculate_panel_positions 6000 4 5) = true :=
  ⟨(C6_layout_never_validates (-1) 6000 5).2.1 (by norm_num),
   (C6_layout_never_validates 4 6000 5).2.2 (by norm_num)⟩

/-- C7 (counterexample): the claim says the panel geometry solver fails with
InvalidArgument if and only if the support or shape tag is unrecognised.  The
code never checks its tags: with frame_type "granite" and support_type
"sideways" — both unrecognised — the solve succeeds. -/
theorem C7_unknown_tags_accepted :
    isOkE (calculate_panel_geometry 0 1000 0 2000 3000 5 "granite" "sideways") = true := by
  simp [calculate_panel_geometry, isOkE]

/-- C7 (amended): `calculate_panel_geometry` never raises on a tag: it
succeeds exactly when single_span ≠ 0 and x_end ≠ x_start, for every pair of
tag strings; an unrecognised frame tag silently selects the steel
("quadratic") shape and an unrecognised support tag silently takes the
top-hung branch.  Only the inner `deflection_shape` raises InvalidArgument,
exactly when its shape tag is neither "fixed-fixed" nor "quadratic" (and its
span is nonzero) — a branch the solver can never reach. -/
theorem C7_failure_characterisation (x_start x_end : ℝ) (span_number : ℕ)
    (single_span panel_height u_max : ℝ) (frame_type support_type : String)
    (x u L : ℝ) (shape : String) :
    (isOkE (calculate_panel_geometry x_start x_end span_number single_span panel_height
        u_max frame_type support_type) = true ↔
      single_span ≠ 0 ∧ x_end - x_start ≠ 0) ∧
    (shape ≠ "fixed-fixed" → shape ≠ "quadratic" → L ≠ 0 →
      deflection_calculations.deflection_shape x u L shape = .error .invalidArgument) ∧
    (frame_type ≠ "concrete" →
      deflection_calculations.get_deflection_at_position x u L frame_type =
        deflection_calculations.deflection_shape x u L ("quadratic")) ∧
    (support_type ≠ "bottom_supported" →
      calculate_panel_geometry x_start x_end span_number single_span panel_height
          u_max frame_type support_type =
        calculate_panel_geometry x_start x_end span_number single_span panel_height
          u_max frame_type ("top_hung")) := by
  refine ⟨?_, ?_, ?_, ?_⟩
  · by_cases h1 : single_span = 0
    · simp [calculate_panel_geometry, isOkE, h1]
    · by_cases h2 : x_end - x_start = 0 <;>
        simp [calculate_panel_geometry, isOkE, h1, h2]
  · intro hs1 hs2 hL
    simp [deflection_calculations.deflection_shape, hL, hs1, hs2]
  · intro hf
    simp [deflection_calculations.get_deflection_at_position, hf]
  · intro hs
    simp only [calculate_panel_geometry, calculate_panel_geometry_val, hs, String.reduceEq,
      reduceIte]

/-- C7 (witness): the amended theorem instantiated: a solve with recognised
tags and nonzero divisors succeeds, and the inner deflection_shape with the
unknown tag "cubic" raises InvalidArgument. -/
theorem C7_failure_characterisation_witness :
    isOkE (calculate_panel_geometry 1 2 0 3000 3000 10 "concrete" "bottom_supported") = true ∧
    deflection_calculations.deflection_shape 1 1 1 "cubic" = .error .invalidArgument :=
  ⟨(C7_failure_characterisation 1 2 0 3000 3000 10 "concrete" "bottom_supported"
      1 1 1 "cubic").1.mpr ⟨by norm_num, by norm_num⟩,
   (C7_failure_characterisation 1 2 0 3000 3000 10 "concrete" "bottom_supported"
      1 1 1 "cubic").2.1 (by decide) (by decide) (by norm_num)⟩

/-- C8: in the two-span layout, each produced panel's span index is 0 exactly
when its start x is strictly below half the total span and 1 otherwise — the
panel is assigned whole (never split) to the span containing its start, for
every panel the layout returns. -/
theorem C8_span_assignment (total_span joint_width : ℝ) (num_panels : ℤ)
    (ps : List (ℝ × ℝ × ℕ))
    (hok : calculate_panel_positions total_span num_panels joint_width = .ok ps) :
    ∀ p ∈ ps, p.2.2 = if p.1 < total_span / 2 then 0 else 1 := by
  by_cases h : num_panels = 0
  · rw [calculate_panel_positions] at hok
    simp [h] at hok
  · rw [calculate_panel_positions] at hok
    simp only [if_neg h] at hok
    injection hok with hps
    subst hps
    exact panel_loop_mem_span _ _ _ _ _

/-- C8 (witness): the theorem at layout(6000,4,5); its third panel starts at
3002.5 ≥ 3000, so it carries span index 1 even though its body lies close to
the boundary. -/
theorem C8_span_assignment_witness :
    calculate_panel_positions 6000 4 5 =
      .ok [(0, 1496.25, 0), (1501.25, 2997.5, 0), (3002.5, 4498.75, 1),
           (4503.75, 6000, 1)] ∧
    (((3002.5 : ℝ), (4498.75 : ℝ), (1 : ℕ)) : ℝ × ℝ × ℕ).2.2 =
      if (3002.5 : ℝ) < 6000 / 2 then 0 else 1 := by
  refine ⟨layout_example, ?_⟩
  exact C8_span_assignment 6000 5 4 _ layout_example ((3002.5 : ℝ), (4498.75 : ℝ), (1 : ℕ))
    (List.mem_cons_of_mem _ (List.mem_cons_of_mem _ (List.mem_cons_self _ _)))

/-- C9: the aggregator returns one record per input interval, in input order,
and the i-th record is exactly the single-panel solver's result on the i-th
interval alone, extended with that interval's x_start, x_end and
span_number — so no panel's result depends on any other panel. -/
theorem C9_aggregator_fanout (panels : List (ℝ × ℝ × ℕ))
    (single_span panel_height u_max : ℝ) (frame_type support_type : String)
    (gs : List PanelRecord)
    (hok : get_all_panel_geometries panels single_span panel_height u_max
        frame_type support_type = .ok gs) :
    gs.length = panels.length ∧
    ∀ i (hp : i < panels.length) (hg : i < gs.length),
      calculate_panel_geometry (panels.get ⟨i, hp⟩).1 (panels.get ⟨i, hp⟩).2.1
          (panels.get ⟨i, hp⟩).2.2 single_span panel_height u_max frame_type support_type =
        .ok (gs.get ⟨i, hg⟩).toPanelGeometry ∧
      (gs.get ⟨i, hg⟩).x_start = (panels.get ⟨i, hp⟩).1 ∧
      (gs.get ⟨i, hg⟩).x_end = (panels.get ⟨i, hp⟩).2.1 ∧
      (gs.get ⟨i, hg⟩).span_number = (panels.get ⟨i, hp⟩).2.2 := by
  induction panels generalizing gs with
  | nil =>
    rw [get_all_panel_geometries] at hok
    injection hok with h
    subst h
    exact ⟨rfl, fun i hp => absurd hp (Nat.not_lt_zero i)⟩
  | cons head rest ih =>
    obtain ⟨xs, xe, sp⟩ := head
    rw [get_all_panel_geometries] at hok
    cases hcpg : calculate_panel_geometry xs xe sp single_span panel_height u_max
        frame_type support_type with
    | error e => rw [hcpg] at hok; exact absurd hok (by simp)
    | ok g =>
      rw [hcpg] at hok
      cases hrest : get_all_panel_geometries rest single_span panel_height u_max
          frame_type support_type with
      | error e => rw [hrest] at hok; exact absurd hok (by simp)
      | ok gs' =>
        rw [hrest] at hok
        injection hok with h
        subst h
        obtain ⟨ihlen, ihget⟩ := ih gs' hrest
        refine ⟨by simp [ihlen], ?_⟩
        intro i hp hg
        match i with
        | 0 => exact ⟨hcpg, rfl, rfl, rfl⟩
        | j + 1 =>
          exact ihget j (Nat.lt_of_succ_lt_succ hp) (Nat.lt_of_succ_lt_succ hg)

/-- C9 (witness): the theorem at the one-panel input [(0,1000,0)] with span
2000, height 3000, u_max 5, concrete, bottom-supported: the aggregator
returns exactly the solver's record for that interval extended with its
fields. -/
theorem C9_aggregator_fanout_witness :
    get_all_panel_geometries [(0, 1000, 0)] 2000 3000 5 "concrete" "bottom_supported" =
      .ok [⟨calculate_panel_geometry_val 0 1000 0 2000 3000 5 "concrete" "bottom_supported",
            0, 1000, 0⟩] ∧
    ([(⟨calculate_panel_geometry_val 0 1000 0 2000 3000 5 "concrete" "bottom_supported",
        0, 1000, 0⟩ : PanelRecord)] : List PanelRecord).length =
      ([((0 : ℝ), (1000 : ℝ), (0 : ℕ))] : List (ℝ × ℝ × ℕ)).length ∧
    (([(⟨calculate_panel_geometry_val 0 1000 0 2000 3000 5 "concrete" "bottom_supported",
        0, 1000, 0⟩ : PanelRecord)] : List PanelRecord).get ⟨0, by norm_num⟩).x_start = 0 := by
  have h := C9_aggregator_fanout [(0, 1000, 0)] 2000 3000 5 "concrete" "bottom_supported" _
    aggregator_example
  exact ⟨aggregator_example, h.1, (h.2 0 (by norm_num) (by norm_num)).2.1⟩

/-- C10: for every panel with xStart < xEnd (and a nonzero span so the solve
succeeds) whose deflection difference satisfies |dEnd-dStart| ≤ xEnd-xStart,
and for every support tag, the four corners form a parallelogram:
top_left - bottom_left = top_right - bottom_right componentwise, and that
common offset vector has length exactly panel_height (taken ≥ 0). -/
theorem C10_parallelogram (x_start x_end : ℝ) (span_number : ℕ)
    (single_span panel_height u_max : ℝ) (frame_type support_type : String)
    (g : PanelGeometry) (hx : x_start < x_end) (hL : single_span ≠ 0)
    (hH : 0 ≤ panel_height)
    (hdiff : |deflection_val (x_end - span_number * single_span) u_max single_span frame_type -
        deflection_val (x_start - span_number * single_span) u_max single_span frame_type| ≤
        x_end - x_start)
    (hok : calculate_panel_geometry x_start x_end span_number single_span panel_height
        u_max frame_type support_type = .ok g) :
    g.top_left.1 - g.bottom_left.1 = g.top_right.1 - g.bottom_right.1 ∧
    g.top_left.2 - g.bottom_left.2 = g.top_right.2 - g.bottom_right.2 ∧
    Real.sqrt ((g.top_left.1 - g.bottom_left.1) ^ 2 +
        (g.top_left.2 - g.bottom_left.2) ^ 2) = panel_height := by
  rw [calculate_panel_geometry, if_neg hL,
    if_neg (sub_ne_zero.mpr (ne_of_gt hx))] at hok
  injection hok with hg
  subst hg
  by_cases hs : support_type = "bottom_supported"
  · simp only [calculate_panel_geometry_val, hs, if_pos]
    refine ⟨by ring, by ring, ?_⟩
    set θ := Real.arcsin
        (-(deflection_val (x_end - ↑span_number * single_span) u_max single_span frame_type -
            deflection_val (x_start - ↑span_number * single_span) u_max single_span frame_type) /
          (x_end - x_start)) with hθ
    rw [show x_start - panel_height * Real.sin θ - x_start = -(panel_height * Real.sin θ) from by
          ring,
        show deflection_val (x_start - ↑span_number * single_span) u_max single_span frame_type +
            panel_height * Real.cos θ -
            deflection_val (x_start - ↑span_number * single_span) u_max single_span frame_type =
            panel_height * Real.cos θ from by ring,
        show (-(panel_height * Real.sin θ)) ^ 2 + (panel_height * Real.cos θ) ^ 2 =
            panel_height ^ 2 from by nlinarith [Real.sin_sq_add_cos_sq θ]]
    exact Real.sqrt_sq hH
  · simp only [calculate_panel_geometry_val, hs, if_neg, reduceIte]
    refine ⟨by ring, by ring, ?_⟩
    set θ := Real.arcsin
        (-(deflection_val (x_end - ↑span_number * single_span) u_max single_span frame_type -
            deflection_val (x_start - ↑span_number * single_span) u_max single_span frame_type) /
          (x_end - x_start)) with hθ
    rw [show x_start - (x_start + panel_height * Real.sin θ) = -(panel_height * Real.sin θ) from by
          ring,
        show deflection_val (x_start - ↑span_number * single_span) u_max single_span frame_type -
            (deflection_val (x_start - ↑span_number * single_span) u_max single_span frame_type -
              panel_height * Real.cos θ) =
            panel_height * Real.cos θ from by ring,
        show (-(panel_height * Real.sin θ)) ^ 2 + (panel_height * Real.cos θ) ^ 2 =
            panel_height ^ 2 from by nlinarith [Real.sin_sq_add_cos_sq θ]]
    exact Real.sqrt_sq hH

/-- C10 (witness): the theorem at x 0→1000, span 2000, height 3000, u_max 5,
steel, top-hung (dStart = 0, dEnd = -5, so |dEnd-dStart| = 5 ≤ 1000): the
height offsets of the two vertical edges agree and have length 3000. -/
theorem C10_parallelogram_witness :
    (calculate_panel_geometry_val 0 1000 0 2000 3000 5 "steel" "top_hung").top_left.1 -
        (calculate_panel_geometry_val 0 1000 0 2000 3000 5 "steel" "top_hung").bottom_left.1 =
      (calculate_panel_geometry_val 0 1000 0 2000 3000 5 "steel" "top_hung").top_right.1 -
        (calculate_panel_geometry_val 0 1000 0 2000 3000 5 "steel" "top_hung").bottom_right.1 ∧
    Real.sqrt
        (((calculate_panel_geometry_val 0 1000 0 2000 3000 5 "steel" "top_hung").top_left.1 -
            (calculate_panel_geometry_val 0 1000 0 2000 3000 5 "steel"
              "top_hung").bottom_left.1) ^ 2 +
          ((calculate_panel_geometry_val 0 1000 0 2000 3000 5 "steel" "top_hung").top_left.2 -
            (calculate_panel_geometry_val 0 1000 0 2000 3000 5 "steel"
              "top_hung").bottom_left.2) ^ 2) =
      3000 := by
  have h := C10_parallelogram 0 1000 0 2000 3000 5 "steel" "top_hung" _ (by norm_num)
    (by norm_num) (by norm_num) (by norm_num [deflection_val])
    (calculate_panel_geometry_ok 0 1000 0 2000 3000 5 "steel" "top_hung"
      (by norm_num) (by norm_num))
  exact ⟨h.1, h.2.2⟩
